import Mathlib

/-!
Verification development for the Chorus content-pipeline bot.

The Python sources under `app/` are shallowly embedded below:

* pure string post-processing (`_clean_linkedin_draft`, `_clean_x_draft`)
  becomes functions on `List Char` / `String`;
* the Supabase store becomes an explicit `Database` record threaded through
  the operations of `database.py`;
* the per-channel in-memory buffers (`BufferService._buffers`) become an
  association list with Python-dict semantics;
* every OpenAI call site (`llm.complete` / `llm.complete_json`) is an opaque
  external boundary that may fail, modelled by an `LLMOracle` of functions
  returning `Except Unit _`; a `.error ()` result models a raised exception
  (network failure or malformed output), `.ok` a successful parsed reply;
* wall-clock `datetime.utcnow()` becomes an explicit `now : Nat` parameter
  (minutes); "today" buckets (used by `get_suggestions_today`) become an
  explicit `today : Nat` day index.

Real datetimes satisfy `a - b >= timedelta(minutes=w)` iff `b + w <= a`,
which is how elapsed-window comparisons are rendered over `Nat`.
-/

/-! ## Character classes used by the regexes in `generator.py` -/

/-- Models Python's `\w` (word character) for the hashtag regexes
`#\w+` and `#\w+\s*`: ASCII letters, digits and underscore.
(The full Unicode `\w` differs only in which extra characters count as
word characters; `#` and whitespace are non-word either way.) -/
def isWordChar (c : Char) : Bool :=
  c.isAlphanum || c == '_'

/-- Models Python's `\s`: space, tab, newline, carriage return,
vertical tab, form feed. -/
def isPySpace (c : Char) : Bool :=
  c == ' ' || c == '\t' || c == '\n' || c == '\r' ||
  c == Char.ofNat 11 || c == Char.ofNat 12

/-- The six code-point ranges of the emoji character class compiled in
`_clean_linkedin_draft` and `_clean_x_draft`. -/
def isEmojiRangeChar (c : Char) : Bool :=
  let n := c.toNat
  (0x1F600 ≤ n && n ≤ 0x1F64F) ||
  (0x1F300 ≤ n && n ≤ 0x1F5FF) ||
  (0x1F680 ≤ n && n ≤ 0x1F6FF) ||
  (0x1F1E0 ≤ n && n ≤ 0x1F1FF) ||
  (0x2702 ≤ n && n ≤ 0x27B0) ||
  (0x24C2 ≤ n && n ≤ 0x1F251)

/-- `emoji_pattern.sub('', draft)`: deleting every character of the class
`[ranges]+` is deleting every character in the ranges. -/
def stripEmoji (l : List Char) : List Char :=
  l.filter (fun c => !isEmojiRangeChar c)

/-- Whether a character list starts with a word character (the lookahead
used when deciding if `#` opens a `#\w+` match). -/
def firstIsWord : List Char → Bool
  | [] => false
  | c :: _ => isWordChar c

/-- Left-to-right scan of `re.sub(r'#\w+', '', draft)`.
`swallow = true` means the scanner is inside a match, deleting the `\w+`
run; on the first non-word character it falls back to normal scanning
(which may immediately start a new match, as `re.sub` does after a
non-overlapping match ends). -/
def shGo : Bool → List Char → List Char
  | _, [] => []
  | swallow, c :: rest =>
    if swallow && isWordChar c then shGo true rest
    else if c == '#' && firstIsWord rest then shGo true rest
    else c :: shGo false rest

/-- `re.sub(r'#\w+', '', draft)` as used by `_clean_linkedin_draft`. -/
def stripHashtagsLinkedin (l : List Char) : List Char :=
  shGo false l

/-- Scanner mode for the X-draft hashtag regex `#\w+\s*`:
`norm` outside a match, `word` deleting the `\w+` run, `space` deleting
the trailing `\s*` run. -/
inductive SwMode
  | norm | word | space
deriving DecidableEq, Repr

/-- Left-to-right scan of `re.sub(r'#\w+\s*', '', draft)`. -/
def sxGo : SwMode → List Char → List Char
  | _, [] => []
  | m, c :: rest =>
    if (match m with | .word => isWordChar c | _ => false) then sxGo .word rest
    else if (match m with | .norm => false | _ => isPySpace c) then sxGo .space rest
    else if c == '#' && firstIsWord rest then sxGo .word rest
    else c :: sxGo .norm rest

/-- `re.sub(r'#\w+\s*', '', draft)` as used by `_clean_x_draft`. -/
def stripHashtagsX (l : List Char) : List Char :=
  sxGo .norm l

/-- Replacement emitted for a pending newline run: a run of three or more
newlines collapses to exactly two (`re.sub(r'\n{3,}', '\n\n', draft)`),
shorter runs are kept as-is. -/
def emitRun (n : Nat) : List Char :=
  if 3 ≤ n then List.replicate 2 '\n' else List.replicate n '\n'

/-- Scan of `re.sub(r'\n{3,}', '\n\n', draft)`; `n` counts the newline run
currently being read. -/
def cnGo : Nat → List Char → List Char
  | n, [] => emitRun n
  | n, c :: rest =>
    if c == '\n' then cnGo (n + 1) rest
    else emitRun n ++ c :: cnGo 0 rest

/-- `re.sub(r'\n{3,}', '\n\n', draft)` from `_clean_linkedin_draft`. -/
def collapseNewlines (l : List Char) : List Char :=
  cnGo 0 l

/-- Python `str.strip()`: drop whitespace from both ends. -/
def pyStrip (l : List Char) : List Char :=
  ((l.dropWhile isPySpace).reverse.dropWhile isPySpace).reverse

/-- `GeneratorService._clean_linkedin_draft`: strip the emoji ranges, then
hashtags, then collapse newline runs, then `strip()`. -/
def clean_linkedin_draft (draft : String) : String :=
  String.mk (pyStrip (collapseNewlines (stripHashtagsLinkedin (stripEmoji draft.data))))

/-- `GeneratorService._clean_x_draft`: strip hashtags (with trailing
whitespace), then the emoji ranges, then hard-truncate to 277 characters
plus a `...` marker when over 280, then `strip()`. -/
def clean_x_draft (draft : String) : String :=
  let d1 := stripHashtagsX draft.data
  let d2 := stripEmoji d1
  let d3 := if 280 < d2.length then d2.take 277 ++ ['.', '.', '.'] else d2
  String.mk (pyStrip d3)

/-- A hashtag token (`#` immediately followed by a word character) occurs
somewhere in the list. -/
def hasHashtag : List Char → Bool
  | [] => false
  | [_] => false
  | c :: d :: rest => (c == '#' && isWordChar d) || hasHashtag (d :: rest)

/-- No character of the string lies in the six stripped emoji ranges. -/
def noEmojiRange (s : String) : Prop :=
  s.data.all (fun c => !isEmojiRangeChar c) = true

/-! ## Data model (`models.py`, `config.py`) -/

/-- `config.Settings` (behaviour fields only; defaults 60 / 8 / 3). -/
structure Settings where
  buffer_window_minutes : Nat
  min_messages_for_summary : Nat
  max_suggestions_per_day : Nat
deriving DecidableEq, Repr

/-- The defaults declared in `config.py`. -/
def default_settings : Settings :=
  ⟨60, 8, 3⟩

/-- `models.SlackMessage`; `timestamp` in minutes. -/
structure SlackMessage where
  message_id : String
  channel_id : String
  user_id : String
  text : String
  timestamp : Nat
deriving DecidableEq, Repr

/-- `models.MessageBuffer` (one per channel in `BufferService._buffers`). -/
structure MessageBuffer where
  channel_id : String
  messages : List SlackMessage
  started_at : Nat
deriving DecidableEq, Repr

/-- `models.SuggestionStatus`. -/
inductive SuggestionStatus
  | pending | saved | ignored | rewritten
deriving DecidableEq, Repr

/-- A persisted row of the `suggestions` table. Row ids are modelled by a
`Nat` counter; `created_day` is the day bucket used by
`get_suggestions_today`. -/
structure SuggestionRow where
  id : Nat
  summary_id : Nat
  insight : String
  linkedin_draft : String
  x_draft : String
  status : SuggestionStatus
  created_day : Nat
deriving DecidableEq, Repr

/-- A persisted row of the `summaries` table (fields the core reads back). -/
structure SummaryRow where
  id : Nat
  channel_id : String
  summary : String
deriving DecidableEq, Repr

/-- The durable store of `database.py`: the four tables, the id counters
the store would assign, and an audit log of every status update executed
against the `suggestions` table (one entry per `update ... eq(id)` that
matched a row). -/
structure Database where
  messages : List SlackMessage
  summaries : List SummaryRow
  suggestions : List SuggestionRow
  listening : List String
  next_summary_id : Nat
  next_suggestion_id : Nat
  status_writes : List (Nat × SuggestionStatus)
deriving DecidableEq, Repr

/-- `models.ConversationSummary`. -/
structure ConversationSummary where
  summary : String
  key_ideas : List String
  opinions : List String
  decisions : List String
  interesting_phrases : List String
deriving DecidableEq, Repr

/-- `models.PostIdea`. -/
structure PostIdea where
  core_insight : String
  why_it_works : String
deriving DecidableEq, Repr

/-- `models.PostWorthinessResult`. -/
structure PostWorthinessResult where
  is_post_worthy : Bool
  ideas : List PostIdea
deriving DecidableEq, Repr

/-- `models.GeneratedContent`. -/
structure GeneratedContent where
  core_insight : String
  why_it_works : String
  linkedin_draft : String
  x_draft : String
deriving DecidableEq, Repr

/-- The language-model boundary: one field per `complete`/`complete_json`
call site, giving the parsed reply the Python code would extract on
success, or `.error ()` when the call raises (network failure, rate limit
or malformed output — the code treats all of these identically). -/
structure LLMOracle where
  summarizeResult : List SlackMessage → Except Unit ConversationSummary
  detectResult : ConversationSummary → Except Unit PostWorthinessResult
  dedupResult : String → List String → Except Unit Bool
  sensitivityResult : String → String → Except Unit Bool
  linkedinResult : PostIdea → String → Except Unit String
  xResult : PostIdea → Except Unit String
  rewriteLinkedinResult : String → String → String → Except Unit String
  rewriteXResult : String → String → Except Unit String

/-! ## Database operations (`database.py`) -/

/-- `Database.get_messages_in_window`: messages of the channel whose
`created_at` is at least `now - window_minutes` (rendered without
truncating subtraction), in insertion (time) order. -/
def get_messages_in_window (db : Database) (channel_id : String)
    (window_minutes : Nat) (now : Nat) : List SlackMessage :=
  db.messages.filter
    (fun m => m.channel_id == channel_id && decide (now ≤ m.timestamp + window_minutes))

/-- `Database.save_summary` (returns the inserted row's id, as the caller
reads `result.data[0]["id"]`). -/
def save_summary (db : Database) (channel_id : String) (summary : String) :
    Database × Nat :=
  let sid := db.next_summary_id
  ({ db with
      summaries := db.summaries ++ [⟨sid, channel_id, summary⟩],
      next_summary_id := sid + 1 }, sid)

/-- `Database.update_suggestion_status`: set the status of the matching
row; a filter that matches no row updates (and logs) nothing. -/
def update_suggestion_status (db : Database) (suggestion_id : Nat)
    (status : SuggestionStatus) : Database :=
  if db.suggestions.any (fun r => r.id == suggestion_id) then
    { db with
        suggestions := db.suggestions.map
          (fun r => if r.id == suggestion_id then { r with status := status } else r),
        status_writes := db.status_writes ++ [(suggestion_id, status)] }
  else db

/-- `Database.get_suggestion`. -/
def get_suggestion (db : Database) (suggestion_id : Nat) : Option SuggestionRow :=
  db.suggestions.find? (fun r => r.id == suggestion_id)

/-- `Database.get_suggestions_today`: rows whose creation falls in the
current day bucket. -/
def get_suggestions_today (db : Database) (today : Nat) : List SuggestionRow :=
  db.suggestions.filter (fun r => r.created_day == today)

/-- `Database.get_saved_suggestions`: saved rows, newest first, limited. -/
def get_saved_suggestions (db : Database) (limit : Nat) : List SuggestionRow :=
  ((db.suggestions.filter (fun r => decide (r.status = SuggestionStatus.saved))).reverse).take limit

/-! ## Dict helpers (Python `dict` as an association list) -/

/-- `d.get(k)`. -/
def dictGet {α : Type} (d : List (String × α)) (k : String) : Option α :=
  (d.find? (fun p => p.1 == k)).map (fun p => p.2)

/-- `d[k] = v`: replace in place if the key exists, else append. -/
def dictSet {α : Type} (d : List (String × α)) (k : String) (v : α) :
    List (String × α) :=
  if d.any (fun p => p.1 == k) then
    d.map (fun p => if p.1 == k then (k, v) else p)
  else d ++ [(k, v)]

/-! ## Buffer service (`buffer.py`) -/

/-- `BufferService.should_summarize`. With no (or an empty) in-memory
buffer it falls back to a durable count-only check; otherwise it checks
the count threshold, then the elapsed-window-with-floor-of-3 path. -/
def should_summarize (buffers : List (String × MessageBuffer)) (db : Database)
    (s : Settings) (now : Nat) (channel_id : String) : Bool :=
  match dictGet buffers channel_id with
  | none =>
    decide (s.min_messages_for_summary ≤
      (get_messages_in_window db channel_id s.buffer_window_minutes now).length)
  | some buffer =>
    if buffer.messages.isEmpty then
      decide (s.min_messages_for_summary ≤
        (get_messages_in_window db channel_id s.buffer_window_minutes now).length)
    else if s.min_messages_for_summary ≤ buffer.messages.length then true
    else if buffer.started_at + s.buffer_window_minutes ≤ now ∧
            3 ≤ buffer.messages.length then true
    else false

/-- `BufferService.get_messages_for_summary`: prefer the durable window
query, fall back to the in-memory buffer only when it returns empty. -/
def get_messages_for_summary (buffers : List (String × MessageBuffer))
    (db : Database) (s : Settings) (now : Nat) (channel_id : String) :
    List SlackMessage :=
  let db_messages := get_messages_in_window db channel_id s.buffer_window_minutes now
  if db_messages.isEmpty then
    match dictGet buffers channel_id with
    | none => []
    | some buffer => buffer.messages
  else db_messages

/-- `BufferService.clear_buffer`: reopen the channel's window (empty
message list, window start = now); a channel with no buffer entry is left
untouched. -/
def clear_buffer (buffers : List (String × MessageBuffer)) (now : Nat)
    (channel_id : String) : List (String × MessageBuffer) :=
  if buffers.any (fun p => p.1 == channel_id) then
    dictSet buffers channel_id ⟨channel_id, [], now⟩
  else buffers

/-! ## Summarizer (`summarizer.py`) -/

/-- `SummarizerService.summarize_conversation`: `none` on empty input or
model failure, never an error. -/
def summarize_conversation (llm : LLMOracle) (messages : List SlackMessage) :
    Option ConversationSummary :=
  if messages.isEmpty then none
  else
    match llm.summarizeResult messages with
    | .ok summary => some summary
    | .error _ => none

/-! ## Detector (`detector.py`) -/

/-- `DetectorService.detect_post_worthy`: on failure, not post-worthy and
no ideas. -/
def detect_post_worthy (llm : LLMOracle) (summary : ConversationSummary) :
    PostWorthinessResult :=
  match llm.detectResult summary with
  | .ok result => result
  | .error _ => ⟨false, []⟩

/-- `DetectorService.check_duplicate`: short-circuit `false` on an empty
existing list (no call), `false` on call failure (fail-open). -/
def check_duplicate (llm : LLMOracle) (new_insight : String)
    (existing_insights : List String) : Bool :=
  if existing_insights.isEmpty then false
  else
    match llm.dedupResult new_insight existing_insights with
    | .ok is_dup => is_dup
    | .error _ => false

/-- `DetectorService.check_sensitivity`: `true` on call failure
(fail-closed). -/
def check_sensitivity (llm : LLMOracle) (insight summary : String) : Bool :=
  match llm.sensitivityResult insight summary with
  | .ok is_sensitive => is_sensitive
  | .error _ => true

/-- The loop body of `DetectorService.filter_ideas`: drop duplicates and
sensitive ideas, appending each survivor's insight to the running
existing-insights accumulator. -/
def filterLoop (llm : LLMOracle) (summary : String) :
    List PostIdea → List String → List PostIdea
  | [], _ => []
  | idea :: rest, existing =>
    if check_duplicate llm idea.core_insight existing then
      filterLoop llm summary rest existing
    else if check_sensitivity llm idea.core_insight summary then
      filterLoop llm summary rest existing
    else
      idea :: filterLoop llm summary rest (existing ++ [idea.core_insight])

/-- `DetectorService.filter_ideas`: seed the accumulator from the 20 most
recent saved suggestions. -/
def filter_ideas (llm : LLMOracle) (db : Database) (ideas : List PostIdea)
    (summary : String) : List PostIdea :=
  filterLoop llm summary ideas ((get_saved_suggestions db 20).map (fun r => r.insight))

/-! ## Generator (`generator.py`) -/

/-- `GeneratorService.generate_linkedin_post`: clean on success, empty
string on failure. -/
def generate_linkedin_post (llm : LLMOracle) (idea : PostIdea)
    (summary : String) : String :=
  match llm.linkedinResult idea summary with
  | .ok draft => clean_linkedin_draft draft
  | .error _ => ""

/-- `GeneratorService.generate_x_post`: clean on success, empty string on
failure. -/
def generate_x_post (llm : LLMOracle) (idea : PostIdea) : String :=
  match llm.xResult idea with
  | .ok draft => clean_x_draft draft
  | .error _ => ""

/-- `GeneratorService.generate_content`. -/
def generate_content (llm : LLMOracle) (idea : PostIdea) (summary : String) :
    GeneratedContent :=
  ⟨idea.core_insight, idea.why_it_works,
    generate_linkedin_post llm idea summary, generate_x_post llm idea⟩

/-- `GeneratorService.rewrite_linkedin`: clean on success, the original
draft unchanged on failure. -/
def rewrite_linkedin (llm : LLMOracle)
    (original_draft core_insight summary : String) : String :=
  match llm.rewriteLinkedinResult original_draft core_insight summary with
  | .ok draft => clean_linkedin_draft draft
  | .error _ => original_draft

/-- `GeneratorService.rewrite_x`: clean on success, the original draft
unchanged on failure. -/
def rewrite_x (llm : LLMOracle) (original_draft core_insight : String) : String :=
  match llm.rewriteXResult original_draft core_insight with
  | .ok draft => clean_x_draft draft
  | .error _ => original_draft

/-- `GeneratorService.save_suggestion`: insert a `pending` suggestion row
for the content. -/
def save_suggestion (db : Database) (content : GeneratedContent)
    (summary_id : Nat) (today : Nat) : Database × SuggestionRow :=
  let sid := db.next_suggestion_id
  let row : SuggestionRow :=
    ⟨sid, summary_id, content.core_insight, content.linkedin_draft,
      content.x_draft, SuggestionStatus.pending, today⟩
  ({ db with
      suggestions := db.suggestions ++ [row],
      next_suggestion_id := sid + 1 }, row)

/-! ## Pipeline orchestrator (`pipeline.py`) -/

/-- The durable store plus the buffer service's in-memory dict — the state
a pipeline pass reads and writes. -/
structure SystemState where
  db : Database
  buffers : List (String × MessageBuffer)
deriving DecidableEq, Repr

/-- The per-idea loop of `ContentPipeline.process_channel` (step 4):
generate both drafts, skip the idea if either is empty, else persist a
pending suggestion and append it to the results. -/
def genLoop (llm : LLMOracle) (summary : String) (summary_id today : Nat) :
    List PostIdea → Database → Database × List SuggestionRow
  | [], db => (db, [])
  | idea :: rest, db =>
    let content := generate_content llm idea summary
    if content.linkedin_draft == "" || content.x_draft == "" then
      genLoop llm summary summary_id today rest db
    else
      let saved := save_suggestion db content summary_id today
      let next := genLoop llm summary summary_id today rest saved.1
      (next.1, saved.2 :: next.2)

/-- `ContentPipeline.process_channel`. -/
def process_channel (llm : LLMOracle) (s : Settings) (now today : Nat)
    (st : SystemState) (channel_id : String) : SystemState × List SuggestionRow :=
  if !(should_summarize st.buffers st.db s now channel_id) then (st, [])
  else
    let suggestions_today := get_suggestions_today st.db today
    if s.max_suggestions_per_day ≤ suggestions_today.length then (st, [])
    else
      let messages := get_messages_for_summary st.buffers st.db s now channel_id
      if messages.isEmpty then (st, [])
      else
        match summarize_conversation llm messages with
        | none => ({ st with buffers := clear_buffer st.buffers now channel_id }, [])
        | some summary =>
          if summary.summary == "" then
            ({ st with buffers := clear_buffer st.buffers now channel_id }, [])
          else
            let saved_summary := save_summary st.db channel_id summary.summary
            let buffers1 := clear_buffer st.buffers now channel_id
            let detection := detect_post_worthy llm summary
            if !detection.is_post_worthy || detection.ideas.isEmpty then
              (⟨saved_summary.1, buffers1⟩, [])
            else
              let filtered := filter_ideas llm saved_summary.1 detection.ideas summary.summary
              if filtered.isEmpty then (⟨saved_summary.1, buffers1⟩, [])
              else
                let remaining := s.max_suggestions_per_day - suggestions_today.length
                let generated :=
                  genLoop llm summary.summary saved_summary.2 today
                    (filtered.take remaining) saved_summary.1
                (⟨generated.1, buffers1⟩, generated.2)

/-- The channel loop of `ContentPipeline.process_all_channels`, threading
state through the channels in order. (The per-channel `try/except` guards
runtime faults; the embedded step is total.) -/
def runChannels (llm : LLMOracle) (s : Settings) (now today : Nat) :
    List String → SystemState → SystemState × List SuggestionRow
  | [], st => (st, [])
  | ch :: rest, st =>
    let head := process_channel llm s now today st ch
    let tail := runChannels llm s now today rest head.1
    (tail.1, head.2 ++ tail.2)

/-- `ContentPipeline.process_all_channels`: the listening-channel list is
read once, then each channel is processed in order. -/
def process_all_channels (llm : LLMOracle) (s : Settings) (now today : Nat)
    (st : SystemState) : SystemState × List SuggestionRow :=
  runChannels llm s now today st.db.listening st

/-! ## Slack feedback routing (`slack_handler.py`) -/

/-- One delivered suggestion message (arguments of
`SlackBot.send_suggestion`). -/
structure SentMessage where
  channel : String
  insight : String
  why_it_works : String
  linkedin_draft : String
  x_draft : String
  suggestion_id : Nat
deriving DecidableEq, Repr

/-- The bot's state: the message-ts → suggestion-id map, the store, the
suggestion messages posted, and the timestamps answered with a thread
confirmation. -/
structure BotState where
  suggestion_message_map : List (String × Nat)
  db : Database
  sent : List SentMessage
  thread_replies : List String
deriving DecidableEq, Repr

/-- `SlackBot.send_suggestion`: on a successful `chat_postMessage` (result
`.ok message_ts`) record the sent message and map its timestamp to the
suggestion id; a raised send error is caught and leaves the state
unchanged. -/
def send_suggestion (st : BotState) (post : Except Unit String)
    (channel insight why_it_works linkedin_draft x_draft : String)
    (suggestion_id : Nat) : BotState :=
  match post with
  | .ok message_ts =>
    { st with
        sent := st.sent ++
          [⟨channel, insight, why_it_works, linkedin_draft, x_draft, suggestion_id⟩],
        suggestion_message_map := dictSet st.suggestion_message_map message_ts suggestion_id }
  | .error _ => st

/-- `SlackBot._rewrite_suggestion`: no-op when the suggestion id has no
record; otherwise rewrite both drafts (summary context is always passed
as the empty string) and deliver them as a new message carrying the same
suggestion id. -/
def rewrite_suggestion (llm : LLMOracle) (post : Except Unit String)
    (st : BotState) (suggestion_id : Nat) (channel : String) : BotState :=
  match get_suggestion st.db suggestion_id with
  | none => st
  | some sugg =>
    let new_linkedin := rewrite_linkedin llm sugg.linkedin_draft sugg.insight ""
    let new_x := rewrite_x llm sugg.x_draft sugg.insight
    send_suggestion st post channel sugg.insight "Fresh angle on your earlier insight"
      new_linkedin new_x suggestion_id

/-- `SlackBot._handle_reaction`: resolve the reacted message's timestamp
through the map (unknown timestamps are ignored), then dispatch on the
emoji. `confirm` is the outcome of the save-confirmation
`chat_postMessage` (its failure is caught and logged). -/
def handle_reaction (llm : LLMOracle) (post : Except Unit String)
    (confirm : Except Unit Unit) (st : BotState)
    (reaction message_ts channel : String) : BotState :=
  match dictGet st.suggestion_message_map message_ts with
  | none => st
  | some suggestion_id =>
    if reaction == "+1" || reaction == "thumbsup" then
      let st1 := { st with db := update_suggestion_status st.db suggestion_id SuggestionStatus.saved }
      match confirm with
      | .ok _ => { st1 with thread_replies := st1.thread_replies ++ [message_ts] }
      | .error _ => st1
    else if reaction == "arrows_counterclockwise" || reaction == "repeat" then
      rewrite_suggestion llm post st suggestion_id channel
    else if reaction == "x" || reaction == "negative_squared_cross_mark" then
      { st with db := update_suggestion_status st.db suggestion_id SuggestionStatus.ignored }
    else st

/-! ## Concrete fixtures used to evaluate the model on closed inputs -/

/-- An oracle on which every model call raises. -/
def failOracle : LLMOracle :=
  ⟨fun _ => .error (), fun _ => .error (), fun _ _ => .error (),
   fun _ _ => .error (), fun _ _ => .error (), fun _ => .error (),
   fun _ _ _ => .error (), fun _ _ => .error ()⟩

/-- The model reply `##a b` for an X draft: the `#\w+\s*` substitution
deletes `#a ` and glues the leading `#` onto `b`. -/
def hashtagReply : String :=
  String.mk ['#', '#', 'a', ' ', 'b']

/-- An oracle whose X-draft call succeeds with `hashtagReply`. -/
def hashtagOracle : LLMOracle :=
  { failOracle with xResult := fun _ => .ok hashtagReply }

/-- An oracle whose duplicate checks fail and whose sensitivity check
succeeds with `false`. -/
def dedupFailOracle : LLMOracle :=
  { failOracle with sensitivityResult := fun _ _ => .ok false }

/-- A sample candidate idea. -/
def sample_idea : PostIdea :=
  ⟨"insight", "works"⟩

/-- The store with all four tables empty. -/
def empty_db : Database :=
  ⟨[], [], [], [], 0, 0, []⟩

/-- A store holding eight messages of channel `C` at minute 100. -/
def db8 : Database :=
  { empty_db with messages := List.replicate 8 ⟨"m", "C", "U", "hi", 100⟩ }

/-- An in-memory buffer for channel `C` with two messages, window opened
at minute 0. -/
def buffer2 : MessageBuffer :=
  ⟨"C", [⟨"m1", "C", "U", "a", 0⟩, ⟨"m2", "C", "U", "b", 1⟩], 0⟩

/-- The buffer dict holding only `buffer2`. -/
def buffers2 : List (String × MessageBuffer) :=
  [("C", buffer2)]

/-- A pending suggestion row with id 0. -/
def pending_row : SuggestionRow :=
  ⟨0, 0, "ins", "ld", "xd", SuggestionStatus.pending, 0⟩

/-- The same row after the reviewer saved it. -/
def saved_row : SuggestionRow :=
  ⟨0, 0, "ins", "ld", "xd", SuggestionStatus.saved, 0⟩

/-- Bot state delivering suggestion 0 (pending) as message ts `111.22`. -/
def bot_state0 : BotState :=
  ⟨[("111.22", 0)], { empty_db with suggestions := [pending_row], next_suggestion_id := 1 }, [], []⟩

/-- `bot_state0` after one thumbs-up reaction on `111.22`. -/
def bot_state1 : BotState :=
  handle_reaction failOracle (.error ()) (.error ()) bot_state0 "+1" "111.22" "D"

/-- `bot_state1` after a duplicate thumbs-up reaction on `111.22`. -/
def bot_state2 : BotState :=
  handle_reaction failOracle (.error ()) (.error ()) bot_state1 "+1" "111.22" "D"

/-- Bot state delivering suggestion 0 already in the `saved` state. -/
def bot_state_saved : BotState :=
  ⟨[("111.22", 0)], { empty_db with suggestions := [saved_row], next_suggestion_id := 1 }, [], []⟩

/-- `bot_state_saved` after a rewrite reaction whose delivery succeeds as
message ts `922.1`. -/
def bot_state_rewritten : BotState :=
  handle_reaction failOracle (.ok "922.1") (.error ()) bot_state_saved "repeat" "111.22" "D"

/-- A store already holding three suggestions created today (day 0) —
the default daily quota. -/
def quota_db : Database :=
  { empty_db with
      suggestions :=
        [⟨0, 0, "a", "l", "x", SuggestionStatus.pending, 0⟩,
         ⟨1, 0, "b", "l", "x", SuggestionStatus.pending, 0⟩,
         ⟨2, 0, "c", "l", "x", SuggestionStatus.pending, 0⟩],
      next_suggestion_id := 3 }

/-- Pipeline state at the daily quota, with channel `C` listed. -/
def quota_state : SystemState :=
  ⟨{ quota_db with listening := ["C"] }, []⟩

/-- Pipeline state with nothing buffered or stored. -/
def idle_state : SystemState :=
  ⟨empty_db, []⟩

/-- A 300-character draft, long enough to trigger the X truncation. -/
def longA : String :=
  String.mk (List.replicate 300 'a')

/-- An oracle whose rewrite calls succeed with plain replies. -/
def rewriteOkOracle : LLMOracle :=
  { failOracle with
      rewriteLinkedinResult := fun _ _ _ => .ok "hello",
      rewriteXResult := fun _ _ => .ok "hi" }

/-! ## Helper lemmas: hashtag tokens in cleaned drafts -/

theorem hasHashtag_cons (c : Char) (l : List Char) :
    hasHashtag (c :: l) = ((c == '#' && firstIsWord l) || hasHashtag l) := by
  cases l <;> simp [hasHashtag, firstIsWord]

theorem hasHashtag_tail {c : Char} {l : List Char}
    (h : hasHashtag (c :: l) = false) : hasHashtag l = false := by
  rw [hasHashtag_cons] at h
  exact (Bool.or_eq_false_iff.mp h).2

theorem firstIsWord_shGo : ∀ (l : List Char) (m : Bool),
    m = true ∨ firstIsWord l = false → firstIsWord (shGo m l) = false := by
  intro l
  induction l with
  | nil => intro m _; cases m <;> simp [shGo, firstIsWord]
  | cons c rest ih =>
    intro m hm
    simp only [shGo]
    by_cases h1 : (m && isWordChar c) = true
    · rw [if_pos h1]; exact ih true (Or.inl rfl)
    · rw [if_neg h1]
      by_cases h2 : (c == '#' && firstIsWord rest) = true
      · rw [if_pos h2]; exact ih true (Or.inl rfl)
      · rw [if_neg h2]
        show firstIsWord (c :: shGo false rest) = false
        rcases hm with hm | hm
        · subst hm
          simp only [Bool.true_and] at h1
          simpa [firstIsWord] using h1
        · simpa [firstIsWord] using hm

theorem hasHashtag_shGo : ∀ (l : List Char) (m : Bool),
    hasHashtag (shGo m l) = false := by
  intro l
  induction l with
  | nil => intro m; simp [shGo, hasHashtag]
  | cons c rest ih =>
    intro m
    simp only [shGo]
    by_cases h1 : (m && isWordChar c) = true
    · rw [if_pos h1]; exact ih true
    · rw [if_neg h1]
      by_cases h2 : (c == '#' && firstIsWord rest) = true
      · rw [if_pos h2]; exact ih true
      · rw [if_neg h2]
        rw [hasHashtag_cons, ih false]
        by_cases hc : (c == '#') = true
        · have hfw : firstIsWord rest = false := by
            by_contra hf
            exact h2 (by simp [hc]; simpa using hf)
          rw [firstIsWord_shGo rest false (Or.inr hfw)]
          simp
        · have hc' : (c == '#') = false := by simpa using hc
          simp [hc']

theorem hasHashtag_replicate_newline : ∀ n : Nat,
    hasHashtag (List.replicate n '\n') = false := by
  intro n
  induction n with
  | zero => rfl
  | succ k ih =>
    rw [List.replicate_succ, hasHashtag_cons, ih]
    simp [show ('\n' == '#') = false from rfl]

theorem hasHashtag_emitRun (n : Nat) : hasHashtag (emitRun n) = false := by
  unfold emitRun
  split <;> exact hasHashtag_replicate_newline _

theorem hasHashtag_newline_append : ∀ (n : Nat) (l : List Char),
    hasHashtag (List.replicate n '\n' ++ l) = hasHashtag l := by
  intro n
  induction n with
  | zero => intro l; rfl
  | succ k ih =>
    intro l
    rw [List.replicate_succ, List.cons_append, hasHashtag_cons, ih]
    simp [show ('\n' == '#') = false from rfl]

theorem hasHashtag_emitRun_append (n : Nat) (l : List Char) :
    hasHashtag (emitRun n ++ l) = hasHashtag l := by
  unfold emitRun
  split <;> exact hasHashtag_newline_append _ _

theorem emitRun_pos_cons (n : Nat) (hn : 1 ≤ n) :
    ∃ t, emitRun n = '\n' :: t := by
  unfold emitRun
  split
  · exact ⟨['\n'], rfl⟩
  · cases n with
    | zero => omega
    | succ k => exact ⟨List.replicate k '\n', by rw [List.replicate_succ]⟩

theorem firstIsWord_cnGo_pos : ∀ (l : List Char) (n : Nat), 1 ≤ n →
    firstIsWord (cnGo n l) = false := by
  intro l
  induction l with
  | nil =>
    intro n hn
    obtain ⟨t, ht⟩ := emitRun_pos_cons n hn
    show firstIsWord (emitRun n) = false
    rw [ht]
    simp [firstIsWord, show isWordChar '\x0a' = false from rfl]
  | cons c rest ih =>
    intro n hn
    simp only [cnGo]
    by_cases hc : (c == '\n') = true
    · rw [if_pos hc]; exact ih (n + 1) (by omega)
    · rw [if_neg hc]
      obtain ⟨t, ht⟩ := emitRun_pos_cons n hn
      rw [ht, List.cons_append]
      simp [firstIsWord, show isWordChar '\x0a' = false from rfl]

theorem firstIsWord_cnGo_zero : ∀ l : List Char,
    firstIsWord (cnGo 0 l) = firstIsWord l := by
  intro l
  cases l with
  | nil => rfl
  | cons c rest =>
    simp only [cnGo]
    by_cases hc : (c == '\n') = true
    · rw [if_pos hc, firstIsWord_cnGo_pos rest 1 (Nat.le_refl 1)]
      have : c = '\n' := by simpa using hc
      subst this
      simp [firstIsWord, show isWordChar '\x0a' = false from rfl]
    · rw [if_neg hc]
      show firstIsWord (emitRun 0 ++ c :: cnGo 0 rest) = firstIsWord (c :: rest)
      simp [emitRun, firstIsWord]

theorem hasHashtag_cnGo : ∀ (l : List Char) (n : Nat),
    hasHashtag l = false → hasHashtag (cnGo n l) = false := by
  intro l
  induction l with
  | nil => intro n _; exact hasHashtag_emitRun n
  | cons c rest ih =>
    intro n h
    simp only [cnGo]
    by_cases hc : (c == '\n') = true
    · rw [if_pos hc]; exact ih (n + 1) (hasHashtag_tail h)
    · rw [if_neg hc]
      rw [hasHashtag_emitRun_append, hasHashtag_cons, ih 0 (hasHashtag_tail h),
        firstIsWord_cnGo_zero]
      rw [hasHashtag_cons] at h
      simp [(Bool.or_eq_false_iff.mp h).1]

theorem hasHashtag_append_left : ∀ l₁ l₂ : List Char,
    hasHashtag (l₁ ++ l₂) = false → hasHashtag l₁ = false := by
  intro l₁
  induction l₁ with
  | nil => intro _ _; rfl
  | cons c t ih =>
    intro l₂ h
    rw [List.cons_append, hasHashtag_cons] at h
    have h1 := (Bool.or_eq_false_iff.mp h).1
    have h2 := ih l₂ (Bool.or_eq_false_iff.mp h).2
    rw [hasHashtag_cons, h2]
    cases t with
    | nil => simp [firstIsWord]
    | cons d t' =>
      rw [show firstIsWord ((d :: t') ++ l₂) = firstIsWord (d :: t') from rfl] at h1
      simp [h1]

theorem hasHashtag_dropWhile (q : Char → Bool) : ∀ l : List Char,
    hasHashtag l = false → hasHashtag (l.dropWhile q) = false := by
  intro l
  induction l with
  | nil => intro h; exact h
  | cons c t ih =>
    intro h
    rw [List.dropWhile_cons]
    split
    · exact ih (hasHashtag_tail h)
    · exact h

theorem hasHashtag_pyStrip {l : List Char} (h : hasHashtag l = false) :
    hasHashtag (pyStrip l) = false := by
  unfold pyStrip
  have h1 : hasHashtag (l.dropWhile isPySpace) = false := hasHashtag_dropWhile _ l h
  apply hasHashtag_append_left _ (((l.dropWhile isPySpace).reverse.takeWhile isPySpace).reverse)
  rw [← List.reverse_append, List.takeWhile_append_dropWhile, List.reverse_reverse]
  exact h1

/-! ## Helper lemmas: character predicates preserved by the cleaners -/

theorem all_dropWhile (p q : Char → Bool) : ∀ l : List Char,
    l.all p = true → (l.dropWhile q).all p = true := by
  intro l
  induction l with
  | nil => intro h; exact h
  | cons c t ih =>
    intro h
    rw [List.all_cons] at h
    rw [List.dropWhile_cons]
    split
    · exact ih (Bool.and_elim_right h)
    · rw [List.all_cons]; exact h

theorem all_reverse (p : Char → Bool) (l : List Char) :
    l.reverse.all p = l.all p := by
  simp [List.all_eq_true]

theorem all_pyStrip (p : Char → Bool) {l : List Char} (h : l.all p = true) :
    (pyStrip l).all p = true := by
  unfold pyStrip
  rw [all_reverse]
  apply all_dropWhile
  rw [all_reverse]
  exact all_dropWhile p isPySpace l h

theorem all_take (p : Char → Bool) (l : List Char) (n : Nat)
    (h : l.all p = true) : (l.take n).all p = true := by
  rw [List.all_eq_true] at h ⊢
  intro c hc
  exact h c (List.take_subset n l hc)

theorem all_shGo (p : Char → Bool) : ∀ (l : List Char) (m : Bool),
    l.all p = true → (shGo m l).all p = true := by
  intro l
  induction l with
  | nil => intro m h; exact h
  | cons c t ih =>
    intro m h
    rw [List.all_cons] at h
    simp only [shGo]
    split
    · exact ih true (Bool.and_elim_right h)
    · split
      · exact ih true (Bool.and_elim_right h)
      · rw [List.all_cons, Bool.and_elim_left h, ih false (Bool.and_elim_right h)]
        rfl

theorem all_sxGo (p : Char → Bool) : ∀ (l : List Char) (m : SwMode),
    l.all p = true → (sxGo m l).all p = true := by
  intro l
  induction l with
  | nil => intro m h; exact h
  | cons c t ih =>
    intro m h
    rw [List.all_cons] at h
    simp only [sxGo]
    split
    · exact ih .word (Bool.and_elim_right h)
    · split
      · exact ih .space (Bool.and_elim_right h)
      · split
        · exact ih .word (Bool.and_elim_right h)
        · rw [List.all_cons, Bool.and_elim_left h, ih .norm (Bool.and_elim_right h)]
          rfl

theorem all_emitRun (p : Char → Bool) (hnl : p '\n' = true) (n : Nat) :
    (emitRun n).all p = true := by
  unfold emitRun
  split <;>
    · rw [List.all_eq_true]
      intro c hc
      rw [List.eq_of_mem_replicate hc]
      exact hnl

theorem all_cnGo (p : Char → Bool) (hnl : p '\n' = true) : ∀ (l : List Char) (n : Nat),
    l.all p = true → (cnGo n l).all p = true := by
  intro l
  induction l with
  | nil => intro n _; exact all_emitRun p hnl n
  | cons c t ih =>
    intro n h
    rw [List.all_cons] at h
    simp only [cnGo]
    split
    · exact ih (n + 1) (Bool.and_elim_right h)
    · rw [List.all_append, all_emitRun p hnl n, List.all_cons,
        Bool.and_elim_left h, ih 0 (Bool.and_elim_right h)]
      rfl

theorem all_stripEmoji (l : List Char) :
    (stripEmoji l).all (fun c => !isEmojiRangeChar c) = true := by
  simp [stripEmoji, List.all_eq_true, List.mem_filter]

/-! ## Helper lemmas: lengths under the X cleaner -/

theorem length_dropWhile_le (q : Char → Bool) : ∀ l : List Char,
    (l.dropWhile q).length ≤ l.length := by
  intro l
  induction l with
  | nil => exact Nat.le_refl 0
  | cons c t ih =>
    rw [List.dropWhile_cons]
    split
    · exact Nat.le_trans ih (Nat.le_succ _)
    · exact Nat.le_refl _

theorem length_pyStrip_le (l : List Char) : (pyStrip l).length ≤ l.length := by
  unfold pyStrip
  rw [List.length_reverse]
  calc ((l.dropWhile isPySpace).reverse.dropWhile isPySpace).length
      ≤ (l.dropWhile isPySpace).reverse.length := length_dropWhile_le _ _
    _ = (l.dropWhile isPySpace).length := List.length_reverse _
    _ ≤ l.length := length_dropWhile_le _ _

/-! ## Helper lemmas: the cleaners' guarantees, assembled -/

theorem clean_linkedin_props (s : String) :
    noEmojiRange (clean_linkedin_draft s) ∧
      hasHashtag (clean_linkedin_draft s).data = false := by
  constructor
  · show (pyStrip (collapseNewlines (stripHashtagsLinkedin (stripEmoji s.data)))).all _ = true
    apply all_pyStrip
    apply all_cnGo _ rfl
    apply all_shGo
    exact all_stripEmoji s.data
  · show hasHashtag (pyStrip (collapseNewlines (stripHashtagsLinkedin (stripEmoji s.data)))) = false
    apply hasHashtag_pyStrip
    apply hasHashtag_cnGo
    exact hasHashtag_shGo (stripEmoji s.data) false

theorem clean_x_noEmoji (s : String) : noEmojiRange (clean_x_draft s) := by
  show ((clean_x_draft s).data).all _ = true
  unfold clean_x_draft
  apply all_pyStrip
  split
  · rw [List.all_append]
    rw [all_take _ _ _ (all_stripEmoji (stripHashtagsX s.data))]
    rfl
  · exact all_stripEmoji (stripHashtagsX s.data)

theorem clean_x_length_le (s : String) : (clean_x_draft s).length ≤ 280 := by
  show (pyStrip _).length ≤ 280
  refine Nat.le_trans (length_pyStrip_le _) ?_
  split
  · rw [List.length_append, List.length_take]
    simp only [List.length_cons, List.length_nil]
    omega
  · omega

/-! ## Claim C3 -/

/-- C3 is false as stated: the short-form cleaner strips hashtags with
their trailing whitespace before stripping emoji, so deleting `#a ` from
the model reply `##a b` glues the surviving `#` onto `b` — the generated
X draft `#b` contains a hashtag token. -/
theorem c3_counterexample :
    hasHashtag (generate_x_post hashtagOracle sample_idea).data = true
      ∧ generate_x_post hashtagOracle sample_idea = String.mk ['#', 'b'] := by
  exact ⟨by decide, by decide⟩

/-- C3 (amended): every cleaned draft is free of the six stripped emoji
code-point ranges; long-form cleaned drafts additionally contain no
hashtag token. First-time generation inherits these bounds (failure
returns the empty string), and a rewrite inherits them whenever its model
call succeeds. A short-form draft may retain a hashtag token (see the
counterexample), and emoji outside the stripped ranges are not removed
by either cleaner. -/
theorem c3_draft_content (s : String) (llm : LLMOracle) (idea : PostIdea)
    (summaryText original core : String) :
    (noEmojiRange (clean_linkedin_draft s)
      ∧ hasHashtag (clean_linkedin_draft s).data = false
      ∧ noEmojiRange (clean_x_draft s))
    ∧ (noEmojiRange (generate_linkedin_post llm idea summaryText)
      ∧ hasHashtag (generate_linkedin_post llm idea summaryText).data = false
      ∧ noEmojiRange (generate_x_post llm idea))
    ∧ ((∃ d, llm.rewriteLinkedinResult original core summaryText = .ok d) →
        noEmojiRange (rewrite_linkedin llm original core summaryText)
        ∧ hasHashtag (rewrite_linkedin llm original core summaryText).data = false)
    ∧ ((∃ d, llm.rewriteXResult original core = .ok d) →
        noEmojiRange (rewrite_x llm original core)) := by
  refine ⟨⟨(clean_linkedin_props s).1, (clean_linkedin_props s).2, clean_x_noEmoji s⟩,
    ⟨?_, ?_, ?_⟩, ?_, ?_⟩
  · unfold generate_linkedin_post
    cases llm.linkedinResult idea summaryText with
    | ok d => exact (clean_linkedin_props d).1
    | error e => cases e; unfold noEmojiRange; decide
  · unfold generate_linkedin_post
    cases llm.linkedinResult idea summaryText with
    | ok d => exact (clean_linkedin_props d).2
    | error e => cases e; decide
  · unfold generate_x_post
    cases llm.xResult idea with
    | ok d => exact clean_x_noEmoji d
    | error e => cases e; unfold noEmojiRange; decide
  · rintro ⟨d, hd⟩
    unfold rewrite_linkedin
    rw [hd]
    exact ⟨(clean_linkedin_props d).1, (clean_linkedin_props d).2⟩
  · rintro ⟨d, hd⟩
    unfold rewrite_x
    rw [hd]
    exact clean_x_noEmoji d

/-- Witness for the amended C3: concrete successful rewrites satisfy the
content bounds. -/
theorem c3_draft_content_witness :
    (noEmojiRange (rewrite_linkedin rewriteOkOracle "o" "c" "s")
      ∧ hasHashtag (rewrite_linkedin rewriteOkOracle "o" "c" "s").data = false)
    ∧ noEmojiRange (rewrite_x rewriteOkOracle "o" "c") :=
  ⟨(c3_draft_content "" rewriteOkOracle sample_idea "s" "o" "c").2.2.1 ⟨"hello", rfl⟩,
   (c3_draft_content "" rewriteOkOracle sample_idea "s" "o" "c").2.2.2 ⟨"hi", rfl⟩⟩

/-! ## Claim C9 -/

/-- C9: a generated short-form draft is at most 280 characters; a rewrite
stays within 280 characters whenever the original it may fall back to
does; the cleaner itself never exceeds 280 characters, and a cleaned
draft longer than 280 is hard-truncated to 277 characters plus the `...`
marker. -/
theorem c9_x_length_bound (llm : LLMOracle) (idea : PostIdea)
    (original core s : String) :
    ((generate_x_post llm idea).length ≤ 280)
    ∧ (original.length ≤ 280 → (rewrite_x llm original core).length ≤ 280)
    ∧ ((clean_x_draft s).length ≤ 280)
    ∧ (280 < (stripEmoji (stripHashtagsX s.data)).length →
        clean_x_draft s
          = String.mk (pyStrip
              ((stripEmoji (stripHashtagsX s.data)).take 277 ++ ['.', '.', '.']))) := by
  refine ⟨?_, ?_, clean_x_length_le s, ?_⟩
  · unfold generate_x_post
    cases llm.xResult idea with
    | ok d => exact clean_x_length_le d
    | error e => cases e; decide
  · intro h
    unfold rewrite_x
    cases llm.rewriteXResult original core with
    | ok d => exact clean_x_length_le d
    | error e => exact h
  · intro h
    show String.mk (pyStrip (if 280 < (stripEmoji (stripHashtagsX s.data)).length
        then (stripEmoji (stripHashtagsX s.data)).take 277 ++ ['.', '.', '.']
        else stripEmoji (stripHashtagsX s.data))) = _
    rw [if_pos h]

set_option maxRecDepth 8000 in
/-- Witness for C9: the bound under a failed rewrite falling back to a
short original, and the truncation of a concrete 300-character draft. -/
theorem c9_x_length_bound_witness :
    ((rewrite_x failOracle "orig" "c").length ≤ 280)
    ∧ (280 < (stripEmoji (stripHashtagsX longA.data)).length)
    ∧ clean_x_draft longA
        = String.mk (pyStrip
            ((stripEmoji (stripHashtagsX longA.data)).take 277 ++ ['.', '.', '.'])) := by
  have h := c9_x_length_bound failOracle sample_idea "orig" "c" longA
  have hlong : 280 < (stripEmoji (stripHashtagsX longA.data)).length := by decide
  exact ⟨h.2.1 (by decide), hlong, h.2.2.2 hlong⟩

/-! ## Claim C5 -/

/-- C5: when the sensitivity model call for an idea's insight fails, the
sensitivity check returns true and the idea cannot appear in the
filtered output (fail-closed). -/
theorem c5_fail_closed_sensitivity (llm : LLMOracle) (db : Database)
    (ideas : List PostIdea) (summaryText : String) (idea : PostIdea)
    (hfail : llm.sensitivityResult idea.core_insight summaryText = .error ()) :
    check_sensitivity llm idea.core_insight summaryText = true
      ∧ idea ∉ filter_ideas llm db ideas summaryText := by
  have hsens : check_sensitivity llm idea.core_insight summaryText = true := by
    unfold check_sensitivity
    rw [hfail]
  refine ⟨hsens, ?_⟩
  unfold filter_ideas
  have key : ∀ (rest : List PostIdea) (existing : List String),
      idea ∉ filterLoop llm summaryText rest existing := by
    intro rest
    induction rest with
    | nil => intro ex h; exact absurd h (List.not_mem_nil idea)
    | cons i t ih =>
      intro ex
      simp only [filterLoop]
      split
      · exact ih ex
      · split
        · exact ih ex
        · rename_i hdup hkeep
          intro hmem
          rcases List.mem_cons.mp hmem with heq | hmem'
          · rw [heq] at hsens
            exact hkeep hsens
          · exact ih _ hmem'
  exact key ideas _

/-- Witness for C5: a concrete idea whose sensitivity call fails is
excluded. -/
theorem c5_fail_closed_sensitivity_witness :
    check_sensitivity failOracle sample_idea.core_insight "s" = true
      ∧ sample_idea ∉ filter_ideas failOracle empty_db [sample_idea] "s" :=
  c5_fail_closed_sensitivity failOracle empty_db [sample_idea] "s" sample_idea rfl

/-! ## Claim C8 -/

/-- C8: the duplicate check short-circuits to false on an empty existing
list for every oracle (no model call can influence it), returns false
when its model call fails, and an idea whose duplicate calls all fail is
not excluded by the duplicate check — with a passing sensitivity check it
survives filtering (fail-open). -/
theorem c8_fail_open_duplicate (llm : LLMOracle) (db : Database)
    (new_insight : String) (existing : List String) (summaryText : String)
    (ideas : List PostIdea) (idea : PostIdea) :
    (check_duplicate llm new_insight [] = false)
    ∧ (llm.dedupResult new_insight existing = .error () →
        check_duplicate llm new_insight existing = false)
    ∧ ((∀ es, llm.dedupResult idea.core_insight es = Except.error ()) →
        llm.sensitivityResult idea.core_insight summaryText = .ok false →
        idea ∈ ideas → idea ∈ filter_ideas llm db ideas summaryText) := by
  refine ⟨rfl, ?_, ?_⟩
  · intro h
    unfold check_duplicate
    split
    · rfl
    · rw [h]
  · intro hdup hsens hmem
    unfold filter_ideas
    have hd : ∀ ex, check_duplicate llm idea.core_insight ex = false := by
      intro ex
      unfold check_duplicate
      split
      · rfl
      · rw [hdup ex]
    have hs : check_sensitivity llm idea.core_insight summaryText = false := by
      unfold check_sensitivity
      rw [hsens]
    have key : ∀ (rest : List PostIdea) (existing : List String),
        idea ∈ rest → idea ∈ filterLoop llm summaryText rest existing := by
      intro rest
      induction rest with
      | nil => intro ex h; exact absurd h (List.not_mem_nil idea)
      | cons i t ih =>
        intro ex hm
        rcases List.mem_cons.mp hm with heq | hm'
        · subst heq
          simp only [filterLoop, hd ex, hs]
          simp
        · simp only [filterLoop]
          split
          · exact ih ex hm'
          · split
            · exact ih ex hm'
            · exact List.mem_cons_of_mem _ (ih _ hm')
    exact key ideas _ hmem

/-- Witness for C8: with failing duplicate calls and a clean sensitivity
verdict, a concrete idea flows through the filter. -/
theorem c8_fail_open_duplicate_witness :
    check_duplicate dedupFailOracle "x" [] = false
    ∧ check_duplicate dedupFailOracle "x" ["y"] = false
    ∧ sample_idea ∈ filter_ideas dedupFailOracle empty_db [sample_idea] "s" :=
  ⟨(c8_fail_open_duplicate dedupFailOracle empty_db "x" ["y"] "s" [sample_idea] sample_idea).1,
   (c8_fail_open_duplicate dedupFailOracle empty_db "x" ["y"] "s" [sample_idea] sample_idea).2.1 rfl,
   (c8_fail_open_duplicate dedupFailOracle empty_db "x" ["y"] "s" [sample_idea] sample_idea).2.2
     (fun _ => rfl) rfl (List.mem_singleton.mpr rfl)⟩

/-! ## Claim C6 -/

/-- C6: with a non-empty in-process buffer, readiness holds exactly when
the message count reaches the configured minimum or the window has
elapsed with at least 3 messages present. -/
theorem c6_readiness_nonempty (s : Settings) (db : Database) (now : Nat)
    (buffers : List (String × MessageBuffer)) (channel_id : String)
    (buffer : MessageBuffer)
    (hmap : dictGet buffers channel_id = some buffer)
    (hne : buffer.messages ≠ []) :
    (should_summarize buffers db s now channel_id = true ↔
      (s.min_messages_for_summary ≤ buffer.messages.length
        ∨ (buffer.started_at + s.buffer_window_minutes ≤ now
            ∧ 3 ≤ buffer.messages.length))) := by
  unfold should_summarize
  have hemp : buffer.messages.isEmpty = false := by
    cases h : buffer.messages with
    | nil => exact absurd h hne
    | cons a t => rfl
  simp only [hmap, hemp, Bool.false_eq_true, if_false]
  split_ifs with h1 h2
  · simp [h1]
  · simp [h2]
  · simp only [Bool.false_eq_true, false_iff]
    rw [not_or]
    exact ⟨h1, h2⟩

/-- Witness for C6 (the spec's concrete scenario): two messages and 65
minutes elapsed under the default settings is below the 3-message floor,
so the channel is not ready. -/
theorem c6_readiness_nonempty_witness :
    should_summarize buffers2 empty_db default_settings 65 "C" = false := by
  have h := c6_readiness_nonempty default_settings empty_db 65 buffers2 "C" buffer2
    (by decide) (by decide)
  have hnot : ¬(default_settings.min_messages_for_summary ≤ buffer2.messages.length
      ∨ (buffer2.started_at + default_settings.buffer_window_minutes ≤ 65
          ∧ 3 ≤ buffer2.messages.length)) := by decide
  rcases Bool.eq_false_or_eq_true (should_summarize buffers2 empty_db default_settings 65 "C")
    with hb | hb
  · exact absurd (h.mp hb) hnot
  · exact hb

/-! ## Claim C7 -/

/-- C7: with no (or an empty) in-process buffer, readiness is exactly the
durable count check against the minimum threshold; the elapsed-window
path plays no part. -/
theorem c7_readiness_empty_cache (s : Settings) (db : Database) (now : Nat)
    (buffers : List (String × MessageBuffer)) (channel_id : String)
    (h : dictGet buffers channel_id = none
      ∨ ∃ b, dictGet buffers channel_id = some b ∧ b.messages = []) :
    (should_summarize buffers db s now channel_id = true ↔
      s.min_messages_for_summary ≤
        (get_messages_in_window db channel_id s.buffer_window_minutes now).length) := by
  unfold should_summarize
  rcases h with h | ⟨b, hb, hemp⟩
  · rw [h]
    exact decide_eq_true_iff
  · simp only [hb, hemp, List.isEmpty_nil, if_true]
    exact decide_eq_true_iff

/-- Witness for C7: after a restart (empty cache) eight durable messages
in the window meet the default threshold, so the channel is ready. -/
theorem c7_readiness_empty_cache_witness :
    should_summarize [] db8 default_settings 100 "C" = true := by
  have h := c7_readiness_empty_cache default_settings db8 100 [] "C" (Or.inl rfl)
  exact h.mpr (by decide)

/-! ## Helper lemmas: suggestion counts through the pipeline -/

theorem genLoop_spec (llm : LLMOracle) (summaryText : String)
    (summary_id today : Nat) : ∀ (ideas : List PostIdea) (db : Database),
    (genLoop llm summaryText summary_id today ideas db).1.suggestions
        = db.suggestions ++ (genLoop llm summaryText summary_id today ideas db).2
    ∧ (genLoop llm summaryText summary_id today ideas db).2.length ≤ ideas.length
    ∧ (∀ r ∈ (genLoop llm summaryText summary_id today ideas db).2, r.created_day = today)
    ∧ List.Sublist
        ((genLoop llm summaryText summary_id today ideas db).2.map (fun r => r.insight))
        (ideas.map (fun i => i.core_insight)) := by
  intro ideas
  induction ideas with
  | nil =>
    intro db
    refine ⟨by simp [genLoop], by simp [genLoop], by simp [genLoop], by simp [genLoop]⟩
  | cons idea rest ih =>
    intro db
    simp only [genLoop]
    split
    · obtain ⟨h1, h2, h3, h4⟩ := ih db
      refine ⟨h1, Nat.le_trans h2 (by simp), h3, ?_⟩
      rw [List.map_cons]
      exact h4.trans (List.sublist_cons_self _ _)
    · simp only [save_suggestion]
      obtain ⟨h1, h2, h3, h4⟩ := ih
        { db with
            suggestions := db.suggestions ++
              [⟨db.next_suggestion_id, summary_id, (generate_content llm idea summaryText).core_insight,
                (generate_content llm idea summaryText).linkedin_draft,
                (generate_content llm idea summaryText).x_draft, SuggestionStatus.pending, today⟩],
            next_suggestion_id := db.next_suggestion_id + 1 }
      refine ⟨?_, ?_, ?_, ?_⟩
      · rw [h1]
        simp
      · simpa using Nat.succ_le_succ h2
      · intro r hr
        rcases List.mem_cons.mp hr with hr | hr
        · rw [hr]
        · exact h3 r hr
      · rw [List.map_cons, List.map_cons]
        exact h4.cons₂ _

theorem today_after_genLoop (llm : LLMOracle) (summaryText : String)
    (summary_id today : Nat) (ideas : List PostIdea) (db : Database) :
    (get_suggestions_today (genLoop llm summaryText summary_id today ideas db).1 today).length
        = (get_suggestions_today db today).length
          + (genLoop llm summaryText summary_id today ideas db).2.length
    ∧ (genLoop llm summaryText summary_id today ideas db).2.length ≤ ideas.length := by
  obtain ⟨h1, h2, h3, _⟩ := genLoop_spec llm summaryText summary_id today ideas db
  constructor
  · unfold get_suggestions_today
    rw [h1, List.filter_append, List.length_append]
    have hall : ((genLoop llm summaryText summary_id today ideas db).2.filter
        (fun r => r.created_day == today))
          = (genLoop llm summaryText summary_id today ideas db).2 := by
      rw [List.filter_eq_self]
      intro r hr
      rw [h3 r hr]
      exact beq_self_eq_true today
    rw [hall]
  · exact h2

theorem get_today_save_summary (db : Database) (ch txt : String) (today : Nat) :
    get_suggestions_today (save_summary db ch txt).1 today = get_suggestions_today db today := rfl

theorem process_channel_today (llm : LLMOracle) (s : Settings) (now today : Nat)
    (st : SystemState) (channel_id : String) :
    (get_suggestions_today (process_channel llm s now today st channel_id).1.db today).length
        = (get_suggestions_today st.db today).length
          + (process_channel llm s now today st channel_id).2.length
    ∧ (process_channel llm s now today st channel_id).2.length
        ≤ s.max_suggestions_per_day - (get_suggestions_today st.db today).length := by
  simp only [process_channel]
  split
  · simp
  · split
    · simp
    · split
      · simp
      · split
        · simp
        · split
          · simp
          · split
            · simp [get_today_save_summary]
            · split
              · simp [get_today_save_summary]
              · rename_i hready hquota hmsg summary hsum hemp hdet hfil
                obtain ⟨hcount, hlen⟩ := today_after_genLoop llm summary.summary
                  (save_summary st.db channel_id summary.summary).2 today
                  ((filter_ideas llm (save_summary st.db channel_id summary.summary).1
                      (detect_post_worthy llm summary).ideas summary.summary).take
                    (s.max_suggestions_per_day - (get_suggestions_today st.db today).length))
                  (save_summary st.db channel_id summary.summary).1
                constructor
                · exact hcount
                · exact Nat.le_trans hlen (List.length_take_le _ _)

theorem runChannels_spec (llm : LLMOracle) (s : Settings) (now today : Nat) :
    ∀ (channels : List String) (st : SystemState),
    (get_suggestions_today (runChannels llm s now today channels st).1.db today).length
        = (get_suggestions_today st.db today).length
          + (runChannels llm s now today channels st).2.length
    ∧ (runChannels llm s now today channels st).2.length
        ≤ s.max_suggestions_per_day - (get_suggestions_today st.db today).length := by
  intro channels
  induction channels with
  | nil => intro st; exact ⟨by simp [runChannels], by simp [runChannels]⟩
  | cons ch rest ih =>
    intro st
    simp only [runChannels]
    obtain ⟨hc1, hc2⟩ := process_channel_today llm s now today st ch
    obtain ⟨hr1, hr2⟩ := ih (process_channel llm s now today st ch).1
    constructor
    · rw [List.length_append]
      omega
    · rw [List.length_append]
      omega

/-! ## Claim C4 -/

/-- C4: a full pass creates at most `max_suggestions_per_day` minus the
number of suggestions already persisted today (measured at pass start);
a channel is skipped outright once the persisted count reaches the
quota; each channel creates at most that remainder; and the persisted
suggestions of a channel take the filtered ideas in their original
order (their insights form a sublist of the ideas' insights). -/
theorem c4_quota_bound (llm : LLMOracle) (s : Settings) (now today : Nat)
    (st : SystemState) :
    ((process_all_channels llm s now today st).2.length
        ≤ s.max_suggestions_per_day - (get_suggestions_today st.db today).length)
    ∧ (∀ channel_id, s.max_suggestions_per_day ≤ (get_suggestions_today st.db today).length →
        process_channel llm s now today st channel_id = (st, []))
    ∧ (∀ channel_id, (process_channel llm s now today st channel_id).2.length
        ≤ s.max_suggestions_per_day - (get_suggestions_today st.db today).length)
    ∧ (∀ (summaryText : String) (summary_id : Nat) (ideas : List PostIdea) (db : Database),
        List.Sublist
          ((genLoop llm summaryText summary_id today ideas db).2.map (fun r => r.insight))
          (ideas.map (fun i => i.core_insight))) := by
  refine ⟨(runChannels_spec llm s now today st.db.listening st).2, ?_, ?_, ?_⟩
  · intro channel_id hq
    simp [process_channel, hq]
  · intro channel_id
    exact (process_channel_today llm s now today st channel_id).2
  · intro summaryText summary_id ideas db
    exact (genLoop_spec llm summaryText summary_id today ideas db).2.2.2

/-- Witness for C4: with the daily quota already reached, a concrete
channel is skipped outright. -/
theorem c4_quota_bound_witness :
    process_channel failOracle default_settings 0 0 quota_state "C" = (quota_state, []) :=
  (c4_quota_bound failOracle default_settings 0 0 quota_state).2.1 "C" (by decide)

/-! ## Claim C10 -/

/-- C10: skipping a channel — because it is not ready, or because the
daily quota is already reached — returns the empty result list and
leaves the whole state unchanged: no summary or suggestion is persisted
and the channel's buffer (messages and window start) is untouched. -/
theorem c10_skip_no_state_change (llm : LLMOracle) (s : Settings) (now today : Nat)
    (st : SystemState) (channel_id : String) :
    (should_summarize st.buffers st.db s now channel_id = false →
      process_channel llm s now today st channel_id = (st, []))
    ∧ (s.max_suggestions_per_day ≤ (get_suggestions_today st.db today).length →
      process_channel llm s now today st channel_id = (st, [])) := by
  constructor
  · intro h
    simp [process_channel, h]
  · intro h
    simp [process_channel, h]

/-- Witness for C10: a channel with nothing buffered and nothing stored
is not ready and processing changes nothing; a state at the quota is
likewise left unchanged. -/
theorem c10_skip_no_state_change_witness :
    process_channel failOracle default_settings 0 0 idle_state "C" = (idle_state, [])
    ∧ process_channel failOracle default_settings 0 0 quota_state "Q" = (quota_state, []) :=
  ⟨(c10_skip_no_state_change failOracle default_settings 0 0 idle_state "C").1 (by decide),
   (c10_skip_no_state_change failOracle default_settings 0 0 quota_state "Q").2 (by decide)⟩

/-! ## Helper lemmas: status updates in the suggestions table -/

theorem find?_set_status (rows : List SuggestionRow) (sid : Nat)
    (status : SuggestionStatus) :
    (rows.map (fun r => if r.id == sid then { r with status := status } else r)).find?
        (fun r => r.id == sid)
      = (rows.find? (fun r => r.id == sid)).map (fun r => { r with status := status }) := by
  induction rows with
  | nil => rfl
  | cons r t ih =>
    simp only [List.map_cons]
    by_cases h : (r.id == sid) = true
    · rw [if_pos h, List.find?_cons, List.find?_cons]
      simp [h]
    · have h' : (r.id == sid) = false := by simpa using h
      rw [if_neg h, List.find?_cons, List.find?_cons]
      simp only [h']
      exact ih

theorem update_status_missing (db : Database) (sid : Nat)
    (status : SuggestionStatus) (hnone : get_suggestion db sid = none) :
    update_suggestion_status db sid status = db := by
  unfold get_suggestion at hnone
  rw [List.find?_eq_none] at hnone
  have hany : db.suggestions.any (fun r => r.id == sid) = false := by
    rw [← Bool.not_eq_true, List.any_eq_true]
    rintro ⟨r, hr, hp⟩
    exact hnone r hr hp
  unfold update_suggestion_status
  rw [hany]
  simp

theorem update_status_spec (db : Database) (sid : Nat) (status : SuggestionStatus)
    (hsome : (get_suggestion db sid).isSome = true) :
    get_suggestion (update_suggestion_status db sid status) sid
        = (get_suggestion db sid).map (fun r => { r with status := status })
    ∧ (update_suggestion_status db sid status).status_writes
        = db.status_writes ++ [(sid, status)]
    ∧ (get_suggestion (update_suggestion_status db sid status) sid).isSome = true := by
  have hany : db.suggestions.any (fun r => r.id == sid) = true := by
    unfold get_suggestion at hsome
    rw [Option.isSome_iff_exists] at hsome
    obtain ⟨r, hr⟩ := hsome
    rw [List.any_eq_true]
    refine ⟨r, List.mem_of_find?_eq_some hr, ?_⟩
    have hp := List.find?_some hr
    exact hp
  unfold update_suggestion_status
  rw [if_pos hany]
  refine ⟨?_, rfl, ?_⟩
  · exact find?_set_status db.suggestions sid status
  · show ((db.suggestions.map _).find? _).isSome = true
    rw [find?_set_status db.suggestions sid status, Option.isSome_map']
    exact hsome

theorem handle_plus_db (llm : LLMOracle) (post : Except Unit String)
    (confirm : Except Unit Unit) (st : BotState) (message_ts channel : String)
    (sid : Nat) (hmap : dictGet st.suggestion_message_map message_ts = some sid) :
    (handle_reaction llm post confirm st "+1" message_ts channel).db
        = update_suggestion_status st.db sid SuggestionStatus.saved
    ∧ (handle_reaction llm post confirm st "+1" message_ts channel).suggestion_message_map
        = st.suggestion_message_map := by
  unfold handle_reaction
  simp only [hmap]
  have hcond : (("+1" : String) == "+1" || ("+1" : String) == "thumbsup") = true := by decide
  rw [if_pos hcond]
  cases confirm <;> exact ⟨rfl, rfl⟩

/-! ## Claim C1 -/

/-- C1 is false as stated: a second `saved` feedback event on an
already-saved suggestion is not a no-op — the handler never checks for a
terminal status, so two thumbs-up reactions on suggestion 0 produce two
persisted status writes of `saved` where the claim requires exactly
one. -/
theorem c1_counterexample :
    bot_state2.db.status_writes
        = [(0, SuggestionStatus.saved), (0, SuggestionStatus.saved)]
    ∧ ¬ bot_state2.db.status_writes.length = 1 := by
  exact ⟨by decide, by decide⟩

/-- C1 (amended): a feedback event whose message timestamp is unknown is
a no-op; one whose mapped suggestion id has no stored record performs no
status write; and two `saved` events on the same stored suggestion leave
its status `saved` and produce no error, but perform two persisted
status writes of `saved`, not one (the handler does not treat terminal
states as a guard). -/
theorem c1_feedback_idempotence (llm : LLMOracle) (post : Except Unit String)
    (confirm : Except Unit Unit) (st : BotState)
    (reaction message_ts channel : String) (sid : Nat) :
    (dictGet st.suggestion_message_map message_ts = none →
      handle_reaction llm post confirm st reaction message_ts channel = st)
    ∧ (dictGet st.suggestion_message_map message_ts = some sid →
        get_suggestion st.db sid = none →
        (handle_reaction llm post confirm st "+1" message_ts channel).db = st.db)
    ∧ (dictGet st.suggestion_message_map message_ts = some sid →
        (get_suggestion st.db sid).isSome = true →
        ((get_suggestion (handle_reaction llm post confirm
              (handle_reaction llm post confirm st "+1" message_ts channel)
              "+1" message_ts channel).db sid).map (fun r => r.status)
            = some SuggestionStatus.saved
        ∧ (handle_reaction llm post confirm
              (handle_reaction llm post confirm st "+1" message_ts channel)
              "+1" message_ts channel).db.status_writes
            = st.db.status_writes
                ++ [(sid, SuggestionStatus.saved), (sid, SuggestionStatus.saved)])) := by
  refine ⟨?_, ?_, ?_⟩
  · intro h
    unfold handle_reaction
    simp only [h]
  · intro hmap hnone
    rw [(handle_plus_db llm post confirm st message_ts channel sid hmap).1]
    exact update_status_missing st.db sid _ hnone
  · intro hmap hsome
    obtain ⟨hdb1, hmap1⟩ := handle_plus_db llm post confirm st message_ts channel sid hmap
    obtain ⟨hget1, hw1, hsome1⟩ := update_status_spec st.db sid SuggestionStatus.saved hsome
    have hmap1' : dictGet (handle_reaction llm post confirm st "+1" message_ts channel).suggestion_message_map
        message_ts = some sid := by rw [hmap1]; exact hmap
    obtain ⟨hdb2, _⟩ := handle_plus_db llm post confirm
      (handle_reaction llm post confirm st "+1" message_ts channel) message_ts channel sid hmap1'
    have hsome1' : (get_suggestion (handle_reaction llm post confirm st "+1" message_ts channel).db
        sid).isSome = true := by rw [hdb1]; exact hsome1
    obtain ⟨hget2, hw2, _⟩ := update_status_spec
      (handle_reaction llm post confirm st "+1" message_ts channel).db sid
      SuggestionStatus.saved hsome1'
    constructor
    · rw [hdb2, hget2, hdb1, hget1]
      cases hg : get_suggestion st.db sid with
      | none => rw [hg] at hsome; simp at hsome
      | some r => simp
    · rw [hdb2, hw2, hdb1, hw1]
      simp

/-- Witness for the amended C1: a concrete double-save leaves the row
saved with two writes, and an unknown timestamp is ignored. -/
theorem c1_feedback_idempotence_witness :
    ((get_suggestion bot_state2.db 0).map (fun r => r.status)
        = some SuggestionStatus.saved
      ∧ bot_state2.db.status_writes
        = [(0, SuggestionStatus.saved), (0, SuggestionStatus.saved)])
    ∧ handle_reaction failOracle (.error ()) (.error ())
        ⟨[], empty_db, [], []⟩ "+1" "1.2" "D" = ⟨[], empty_db, [], []⟩ := by
  constructor
  · exact (c1_feedback_idempotence failOracle (.error ()) (.error ()) bot_state0
      "+1" "111.22" "D" 0).2.2 (by decide) (by decide)
  · exact (c1_feedback_idempotence failOracle (.error ()) (.error ())
      ⟨[], empty_db, [], []⟩ "+1" "1.2" "D" 0).1 rfl

/-! ## Claim C2 -/

/-- C2 is false as stated: handling a rewrite on an existing (here
already saved) suggestion is neither rejected as a no-op nor persists a
new pending suggestion record — the handler delivers fresh drafts as a
new message but writes nothing to the suggestions table. -/
theorem c2_counterexample :
    bot_state_rewritten.db.suggestions = bot_state_saved.db.suggestions
    ∧ bot_state_rewritten.db = bot_state_saved.db
    ∧ ¬ bot_state_rewritten = bot_state_saved := by
  exact ⟨by decide, by decide, by decide⟩

/-- C2 (amended): a rewrite event on an unknown suggestion id is a
no-op; on an existing suggestion it never touches the store — the
original's persisted status is unchanged and no new record is created —
and, when delivery succeeds, it sends one new message carrying fresh
drafts under the same suggestion id (when delivery fails, the state is
unchanged). -/
theorem c2_rewrite_no_mutation (llm : LLMOracle) (post : Except Unit String)
    (st : BotState) (suggestion_id : Nat) (channel : String) :
    (get_suggestion st.db suggestion_id = none →
      rewrite_suggestion llm post st suggestion_id channel = st)
    ∧ (∀ sugg, get_suggestion st.db suggestion_id = some sugg →
        (rewrite_suggestion llm post st suggestion_id channel).db = st.db
        ∧ (∀ ts, post = .ok ts →
            (rewrite_suggestion llm post st suggestion_id channel).sent
              = st.sent ++ [⟨channel, sugg.insight, "Fresh angle on your earlier insight",
                  rewrite_linkedin llm sugg.linkedin_draft sugg.insight "",
                  rewrite_x llm sugg.x_draft sugg.insight, suggestion_id⟩])
        ∧ (post = .error () → rewrite_suggestion llm post st suggestion_id channel = st)) := by
  constructor
  · intro h
    unfold rewrite_suggestion
    simp only [h]
  · intro sugg hsome
    unfold rewrite_suggestion
    simp only [hsome]
    refine ⟨?_, ?_, ?_⟩
    · unfold send_suggestion
      cases post <;> rfl
    · intro ts hts
      subst hts
      rfl
    · intro hts
      subst hts
      rfl

/-- Witness for the amended C2: the concrete rewrite of saved suggestion
0 leaves the store untouched and sends one fresh-drafts message; an
unknown id is a no-op. -/
theorem c2_rewrite_no_mutation_witness :
    ((rewrite_suggestion failOracle (.ok "922.1") bot_state_saved 0 "D").db
        = bot_state_saved.db
      ∧ (rewrite_suggestion failOracle (.ok "922.1") bot_state_saved 0 "D").sent
        = bot_state_saved.sent
            ++ [⟨"D", saved_row.insight, "Fresh angle on your earlier insight",
                rewrite_linkedin failOracle saved_row.linkedin_draft saved_row.insight "",
                rewrite_x failOracle saved_row.x_draft saved_row.insight, 0⟩])
    ∧ rewrite_suggestion failOracle (.error ()) bot_state_saved 99 "D" = bot_state_saved := by
  have h := (c2_rewrite_no_mutation failOracle (.ok "922.1") bot_state_saved 0 "D").2
    saved_row (by decide)
  exact ⟨⟨h.1, h.2.1 "922.1" rfl⟩,
    (c2_rewrite_no_mutation failOracle (.error ()) bot_state_saved 99 "D").1 (by decide)⟩
